import Mathlib

/-!
Shallow embedding of the CRM backend (`src/server.ts`).

The server keeps all state in a SQLite database.  We model the database as an
association list of named tables; a table carries its column schema (with the
SQL defaults from the `CREATE TABLE` statements), the next `AUTOINCREMENT`
rowid, and its rows in insertion order.  Scalar SQL values are modelled by
`Value` (NULL / INTEGER / TEXT; the few REAL literals appearing in this
program are whole numbers and are modelled as integers).  `CURRENT_TIMESTAMP`
is modelled by an explicit `now : Nat` argument threaded into every operation
that can stamp a time.

Each HTTP handler of `server.ts` becomes a pure function from the database
(plus its request data) to an `Outcome`: the response (`Except ApiError α`),
the database after the call, and the list of SQL statements that were handed
to the storage engine (`db.prepare`), which lets theorems talk about "no
storage access".  Statement execution follows SQLite semantics: preparing a
statement fails on a missing table, an unknown column, or malformed SQL
(e.g. `INSERT INTO t () VALUES ()`), and a failed statement leaves the
database unchanged.
-/

/-- A SQL scalar value. -/
inductive Value where
  | null
  | int (n : Int)
  | text (s : String)
deriving DecidableEq, Repr

/-- A column default, from the `CREATE TABLE` statements. -/
inductive ColDefault where
  | none
  | val (v : Value)
  | now
deriving DecidableEq, Repr

/-- A (non-rowid) column of a table. -/
structure Column where
  name : String
  dflt : ColDefault
deriving DecidableEq, Repr

/-- A row: its `id` (the INTEGER PRIMARY KEY) plus the values of the remaining
columns, keyed by column name, in schema order. -/
structure Row where
  id : Nat
  vals : List (String × Value)
deriving DecidableEq, Repr

/-- A table: schema, next AUTOINCREMENT id, and rows in insertion order. -/
structure Table where
  schema : List Column
  nextId : Nat
  rows : List Row
deriving DecidableEq, Repr

abbrev DB := List (String × Table)

/-- Boolean string-list membership. -/
def memB (x : String) : List String → Bool
  | [] => false
  | y :: t => if y = x then true else memB x t

/-- Value of column `c` in a row's field list (SQL NULL when absent). -/
def getVal : List (String × Value) → String → Value
  | [], _ => Value.null
  | (k, v) :: t, c => if k = c then v else getVal t c

/-- Does the field list carry an entry for column `c`? -/
def hasKey : List (String × Value) → String → Bool
  | [], _ => false
  | (k, _) :: t, c => if k = c then true else hasKey t c

/-- `UPDATE`-style assignment of column `c` (replaces existing entries only,
as every SQL row carries all of its table's columns). -/
def setField : List (String × Value) → String → Value → List (String × Value)
  | [], _, _ => []
  | (k, w) :: t, c, v =>
    if k = c then (c, v) :: setField t c v else (k, w) :: setField t c v

/-- Index of a column name in an `INSERT` column list. -/
def colIdx : List String → String → Option Nat
  | [], _ => none
  | c :: t, x => if c = x then some 0 else (colIdx t x).map (· + 1)

/-- First element of `cols` that is not a legal column name (what SQLite's
`prepare` reports as `no such column`). -/
def firstNotIn (names : List String) : List String → Option String
  | [] => none
  | c :: t => if memB c names then firstNotIn names t else some c

/-- The addressable columns of a table: the `id` primary key plus the
declared columns. -/
def colNames (schema : List Column) : List String :=
  "id" :: schema.map Column.name

/-- Lookup of a table by name. -/
def dbLookup : DB → String → Option Table
  | [], _ => none
  | (n, T) :: rest, t => if n = t then some T else dbLookup rest t

/-- Replace the (first) table named `t`. -/
def dbSet : DB → String → Table → DB
  | [], _, _ => []
  | (n, T) :: rest, t, T' => if n = t then (n, T') :: rest else (n, T) :: dbSet rest t T'

/-- Evaluate a column default at insertion time. -/
def evalDefault (now : Nat) : ColDefault → Value
  | .none => Value.null
  | .val v => v
  | .now => Value.int now

/-- The row built by an `INSERT`: supplied columns take the bound values, all
others take their schema defaults. -/
def mkRow (now : Nat) (schema : List Column) (cols : List String)
    (vals : List Value) (id : Nat) : Row :=
  ⟨id, schema.map (fun col =>
    (col.name, match colIdx cols col.name with
      | some i => vals.getD i Value.null
      | none => evalDefault now col.dflt))⟩

/-- Storage-engine (SQLite) failures surfaced by `db.prepare(...).run/all`. -/
inductive DbError where
  | noSuchTable (t : String)
  | noSuchColumn (c : String)
  | constraintViolation (c : String)
  | malformedSql
deriving DecidableEq, Repr

/-- Client-visible failures of a request. -/
inductive ApiError where
  | invalidModule
  | storage (e : DbError)
deriving DecidableEq, Repr

/-- Right-hand side of a `SET` assignment in the generated SQL. -/
inductive Rhs where
  | param (v : Value)
  | lit (v : Value)
  | now
deriving DecidableEq, Repr

/-- The SQL statements this server generates (abstract syntax of the strings
interpolated in `server.ts`). -/
inductive Stmt where
  | selectList (table : String) (isDel : Value) (q : Option String) (status : Option Value)
  | insertInto (table : String) (cols : List String) (vals : List Value)
  | updateById (table : String) (sets : List (String × Rhs)) (id : Nat)
deriving DecidableEq, Repr

/-- Result of one HTTP handler call: response, database afterwards, and the
SQL statements handed to the storage engine. -/
structure Outcome (α : Type) where
  result : Except ApiError α
  db : DB
  trace : List Stmt
deriving Repr

def evalRhs (now : Nat) : Rhs → Value
  | .param v => v
  | .lit v => v
  | .now => Value.int now

/-- Apply the `SET` assignments of an `UPDATE`, left to right. -/
def applySets (now : Nat) : List (String × Rhs) → List (String × Value) → List (String × Value)
  | [], vals => vals
  | (c, rhs) :: rest, vals => applySets now rest (setField vals c (evalRhs now rhs))

/-- The `UNIQUE` columns each `CREATE TABLE` statement declares:
`roles.name`, `users.username` and `contracts.contract_no`. -/
def uniqueCols : String → List String
  | "roles" => ["name"]
  | "users" => ["username"]
  | "contracts" => ["contract_no"]
  | _ => []

/-- First `UNIQUE` column of table `t` on which inserting row `r` would
collide with an existing row (SQLite: NULL values never collide). -/
def firstUniqueConflict (t : String) (rows : List Row) (r : Row) : Option String :=
  (uniqueCols t).find? (fun u =>
    !(decide (getVal r.vals u = Value.null)) &&
    rows.any (fun r0 => decide (getVal r0.vals u = getVal r.vals u)))

/-- `INSERT INTO t (cols) VALUES (?...)`.  SQLite rejects an empty column
list as a syntax error, a missing table, an unknown column, and a
column/value arity mismatch; a row colliding on a `UNIQUE` column fails with
a constraint violation; otherwise the new row is appended and the fresh
rowid returned. -/
def execInsert (db : DB) (now : Nat) (t : String) (cols : List String)
    (vals : List Value) : Except DbError (Table × Nat) :=
  if cols.isEmpty then .error .malformedSql
  else match dbLookup db t with
    | none => .error (.noSuchTable t)
    | some T =>
      match firstNotIn (colNames T.schema) cols with
      | some c => .error (.noSuchColumn c)
      | none =>
        if cols.length = vals.length then
          match firstUniqueConflict t T.rows (mkRow now T.schema cols vals T.nextId) with
          | some u => .error (.constraintViolation u)
          | none =>
            .ok (⟨T.schema, T.nextId + 1, T.rows ++ [mkRow now T.schema cols vals T.nextId]⟩,
                 T.nextId)
        else .error .malformedSql

/-- `UPDATE t SET ... WHERE id = ?`.  Returns the updated table and the
affected-row count (which `server.ts` ignores). -/
def execUpdate (db : DB) (now : Nat) (t : String) (sets : List (String × Rhs))
    (id : Nat) : Except DbError (Table × Nat) :=
  match dbLookup db t with
  | none => .error (.noSuchTable t)
  | some T =>
    match firstNotIn (colNames T.schema) (sets.map Prod.fst) with
    | some c => .error (.noSuchColumn c)
    | none =>
      .ok (⟨T.schema, T.nextId,
            T.rows.map (fun r => if r.id = id then Row.mk r.id (applySets now sets r.vals) else r)⟩,
           T.rows.countP (fun r => r.id == id))

/-- ASCII-only lower-casing, as SQLite's default `LIKE` folds only ASCII. -/
def lowerChars (l : List Char) : List Char := l.map Char.toLower

def strPrefixOf : List Char → List Char → Bool
  | [], _ => true
  | _ :: _, [] => false
  | a :: as, b :: bs => if a = b then strPrefixOf as bs else false

def strInfixOf (n : List Char) : List Char → Bool
  | [] => n.isEmpty
  | b :: t => strPrefixOf n (b :: t) || strInfixOf n t

/-- `column LIKE '%needle%'`: case-insensitive substring match; NULL never
matches, numbers are matched against their decimal text. -/
def likeContains (needle : String) : Value → Bool
  | .null => false
  | .int n => strInfixOf (lowerChars needle.data) (lowerChars (toString n).data)
  | .text s => strInfixOf (lowerChars needle.data) (lowerChars s.data)

/-- Strict ordering on SQL values: NULL < numbers < text, text compared
codepoint-wise. -/
def strLtB : List Char → List Char → Bool
  | [], [] => false
  | [], _ :: _ => true
  | _ :: _, [] => false
  | a :: as, b :: bs =>
    if a.toNat < b.toNat then true
    else if b.toNat < a.toNat then false
    else strLtB as bs

def valLt : Value → Value → Bool
  | .null, .null => false
  | .null, .int _ => true
  | .null, .text _ => true
  | .int _, .null => false
  | .int m, .int n => decide (m < n)
  | .int _, .text _ => true
  | .text _, .null => false
  | .text _, .int _ => false
  | .text s, .text t => strLtB s.data t.data

/-- Stable insertion for `ORDER BY key DESC` (ties keep first-seen order). -/
def insertDesc (key : Row → Value) (r : Row) : List Row → List Row
  | [] => [r]
  | x :: xs => if valLt (key r) (key x) then x :: insertDesc key r xs else r :: x :: xs

def sortDesc (key : Row → Value) : List Row → List Row
  | [] => []
  | r :: rs => insertDesc key r (sortDesc key rs)

def rowCreated (r : Row) : Value := getVal r.vals "created_at"

/-- The column the list query's `WHERE` / `ORDER BY` clauses fail on at
prepare time, if any (`no such column`, in SQL text order). -/
def selectColsOk (names : List String) (q : Option String) (status : Option Value) :
    Option String :=
  if !(memB "is_deleted" names) then some "is_deleted"
  else if q.isSome && !(memB "name" names) then some "name"
  else if q.isSome && !(memB "contact_person" names) then some "contact_person"
  else if status.isSome && !(memB "status" names) then some "status"
  else if !(memB "created_at" names) then some "created_at"
  else none

/-- The row filter of the generic list query. -/
def rowPred (isDel : Value) (q : Option String) (status : Option Value) (r : Row) : Bool :=
  decide (getVal r.vals "is_deleted" = isDel)
  && (match q with
      | Option.none => true
      | some s => likeContains s (getVal r.vals "name")
          || likeContains s (getVal r.vals "contact_person"))
  && (match status with
      | Option.none => true
      | some v => decide (getVal r.vals "status" = v))

/-- `SELECT * FROM t WHERE is_deleted = ? [AND (name LIKE ? OR contact_person
LIKE ?)] [AND status = ?] ORDER BY created_at DESC`. -/
def execSelect (db : DB) (t : String) (isDel : Value) (q : Option String)
    (status : Option Value) : Except DbError (List Row) :=
  match dbLookup db t with
  | none => .error (.noSuchTable t)
  | some T =>
    match selectColsOk (colNames T.schema) q status with
    | some c => .error (.noSuchColumn c)
    | none => .ok (sortDesc rowCreated (T.rows.filter (rowPred isDel q status)))

/-! ## The schemas of `CREATE TABLE` (non-id columns, in declaration order) -/

def rolesCols : List Column :=
  [⟨"name", .none⟩, ⟨"level", .none⟩, ⟨"permissions", .none⟩]

def usersCols : List Column :=
  [⟨"username", .none⟩, ⟨"password", .none⟩, ⟨"role_id", .none⟩, ⟨"department", .none⟩]

def leadsCols : List Column :=
  [⟨"name", .none⟩, ⟨"contact_person", .none⟩, ⟨"phone", .none⟩, ⟨"email", .none⟩,
   ⟨"source", .none⟩, ⟨"level", .none⟩, ⟨"status", .val (.text "未跟进")⟩,
   ⟨"owner_id", .none⟩, ⟨"created_at", .now⟩, ⟨"updated_at", .now⟩,
   ⟨"is_deleted", .val (.int 0)⟩, ⟨"deleted_at", .none⟩]

def customersCols : List Column :=
  [⟨"name", .none⟩, ⟨"type", .none⟩, ⟨"industry", .none⟩, ⟨"contact_person", .none⟩,
   ⟨"phone", .none⟩, ⟨"address", .none⟩, ⟨"level", .none⟩,
   ⟨"status", .val (.text "合作中")⟩, ⟨"owner_id", .none⟩, ⟨"created_at", .now⟩,
   ⟨"updated_at", .now⟩, ⟨"is_deleted", .val (.int 0)⟩, ⟨"deleted_at", .none⟩]

def opportunitiesCols : List Column :=
  [⟨"name", .none⟩, ⟨"customer_id", .none⟩, ⟨"stage", .none⟩, ⟨"probability", .none⟩,
   ⟨"amount", .none⟩, ⟨"expected_date", .none⟩, ⟨"description", .none⟩,
   ⟨"owner_id", .none⟩, ⟨"created_at", .now⟩, ⟨"updated_at", .now⟩,
   ⟨"is_deleted", .val (.int 0)⟩, ⟨"deleted_at", .none⟩]

def contractsCols : List Column :=
  [⟨"contract_no", .none⟩, ⟨"name", .none⟩, ⟨"customer_id", .none⟩,
   ⟨"opportunity_id", .none⟩, ⟨"type", .none⟩, ⟨"amount", .none⟩,
   ⟨"payment_method", .none⟩, ⟨"sign_date", .none⟩, ⟨"expiry_date", .none⟩,
   ⟨"status", .val (.text "草稿")⟩, ⟨"owner_id", .none⟩, ⟨"created_at", .now⟩,
   ⟨"updated_at", .now⟩, ⟨"is_deleted", .val (.int 0)⟩, ⟨"deleted_at", .none⟩]

def activitiesCols : List Column :=
  [⟨"name", .none⟩, ⟨"type", .none⟩, ⟨"channel", .none⟩, ⟨"start_time", .none⟩,
   ⟨"end_time", .none⟩, ⟨"location", .none⟩, ⟨"details", .none⟩, ⟨"budget", .none⟩,
   ⟨"status", .val (.text "策划中")⟩, ⟨"owner_id", .none⟩, ⟨"created_at", .now⟩,
   ⟨"updated_at", .now⟩, ⟨"is_deleted", .val (.int 0)⟩, ⟨"deleted_at", .none⟩]

def commentsCols : List Column :=
  [⟨"entity_type", .none⟩, ⟨"entity_id", .none⟩, ⟨"user_id", .none⟩,
   ⟨"content", .none⟩, ⟨"parent_id", .none⟩, ⟨"created_at", .now⟩]

def followUpsCols : List Column :=
  [⟨"entity_type", .none⟩, ⟨"entity_id", .none⟩, ⟨"method", .none⟩, ⟨"result", .none⟩,
   ⟨"content", .none⟩, ⟨"next_step_time", .none⟩, ⟨"user_id", .none⟩, ⟨"created_at", .now⟩]

def mkTable (schema : List Column) : Table := ⟨schema, 1, []⟩

/-- The database right after `ensureSchema` on a fresh file. -/
def initDB : DB :=
  [("roles", mkTable rolesCols), ("users", mkTable usersCols),
   ("leads", mkTable leadsCols), ("customers", mkTable customersCols),
   ("opportunities", mkTable opportunitiesCols), ("contracts", mkTable contractsCols),
   ("activities", mkTable activitiesCols), ("comments", mkTable commentsCols),
   ("follow_ups", mkTable followUpsCols)]

/-! ## The HTTP handlers of `server.ts` -/

def validModules : List String :=
  ["leads", "customers", "opportunities", "contracts", "activities"]

/-- Query parameters of `GET /api/:module` (`owner_id` is destructured by the
code but never used). -/
structure ListQuery where
  q : Option String
  status : Option Value
  owner_id : Option Value
  is_deleted : Value

/-- `app.get("/api/:module")`: the only handler that checks the allow-list;
on an invalid module it returns 404 before building any SQL. -/
def listHandler (db : DB) (module : String) (lq : ListQuery) : Outcome (List Row) :=
  if memB module validModules then
    match execSelect db module lq.is_deleted lq.q lq.status with
    | .ok rows => ⟨.ok rows, db, [Stmt.selectList module lq.is_deleted lq.q lq.status]⟩
    | .error e => ⟨.error (.storage e), db, [Stmt.selectList module lq.is_deleted lq.q lq.status]⟩
  else ⟨.error .invalidModule, db, []⟩

/-- `app.post("/api/:module")`: no allow-list check; interpolates the module
name and the body's keys straight into the `INSERT`. -/
def createHandler (db : DB) (now : Nat) (module : String)
    (body : List (String × Value)) : Outcome Nat :=
  match execInsert db now module (body.map Prod.fst) (body.map Prod.snd) with
  | .ok (T2, newId) =>
    ⟨.ok newId, dbSet db module T2, [Stmt.insertInto module (body.map Prod.fst) (body.map Prod.snd)]⟩
  | .error e =>
    ⟨.error (.storage e), db, [Stmt.insertInto module (body.map Prod.fst) (body.map Prod.snd)]⟩

/-- `app.put("/api/:module/:id")`: partial update over the supplied keys plus
`updated_at = CURRENT_TIMESTAMP`; no allow-list check, and the affected-row
count is ignored (`{success: true}` even when no row matched).  An empty body
yields `SET , updated_at = ...`, which SQLite rejects as malformed. -/
def updateHandler (db : DB) (now : Nat) (module : String) (id : Nat)
    (body : List (String × Value)) : Outcome Unit :=
  let sets := body.map (fun p => (p.1, Rhs.param p.2)) ++ [("updated_at", Rhs.now)]
  if body.isEmpty then ⟨.error (.storage .malformedSql), db, [Stmt.updateById module sets id]⟩
  else
    match execUpdate db now module sets id with
    | .ok (T2, _) => ⟨.ok (), dbSet db module T2, [Stmt.updateById module sets id]⟩
    | .error e => ⟨.error (.storage e), db, [Stmt.updateById module sets id]⟩

/-- `app.delete("/api/:module/:id")`: `SET is_deleted = 1, deleted_at =
CURRENT_TIMESTAMP WHERE id = ?`; no allow-list check, result count ignored. -/
def softDeleteHandler (db : DB) (now : Nat) (module : String) (id : Nat) : Outcome Unit :=
  let sets := [("is_deleted", Rhs.lit (Value.int 1)), ("deleted_at", Rhs.now)]
  match execUpdate db now module sets id with
  | .ok (T2, _) => ⟨.ok (), dbSet db module T2, [Stmt.updateById module sets id]⟩
  | .error e => ⟨.error (.storage e), db, [Stmt.updateById module sets id]⟩

/-- `app.post("/api/:module/:id/restore")`: `SET is_deleted = 0, deleted_at =
NULL WHERE id = ?`; no allow-list check, result count ignored, no timestamp
is written. -/
def restoreHandler (db : DB) (module : String) (id : Nat) : Outcome Unit :=
  let sets := [("is_deleted", Rhs.lit (Value.int 0)), ("deleted_at", Rhs.lit Value.null)]
  match execUpdate db 0 module sets id with
  | .ok (T2, _) => ⟨.ok (), dbSet db module T2, [Stmt.updateById module sets id]⟩
  | .error e => ⟨.error (.storage e), db, [Stmt.updateById module sets id]⟩

def listJoin : List (List Row) → List Row
  | [] => []
  | l :: ls => l ++ listJoin ls

/-- `app.get("/api/comments/:type/:id")`: an INNER `JOIN users u ON c.user_id
= u.id`, filtered to the `(entity_type, entity_id)` pair, each row annotated
with the user's `username`, ordered by `created_at DESC`. -/
def commentsListHandler (db : DB) (etype : String) (eid : Nat) :
    Except DbError (List Row) :=
  match dbLookup db "comments" with
  | Option.none => .error (.noSuchTable "comments")
  | some ct =>
    match dbLookup db "users" with
    | Option.none => .error (.noSuchTable "users")
    | some ut =>
      let matched := ct.rows.filter (fun c =>
        decide (getVal c.vals "entity_type" = Value.text etype)
        && decide (getVal c.vals "entity_id" = Value.int eid))
      let joined := listJoin (matched.map (fun c =>
        (ut.rows.filter (fun u => decide (getVal c.vals "user_id" = Value.int u.id))).map
          (fun u => Row.mk c.id (c.vals ++ [("username", getVal u.vals "username")]))))
      .ok (sortDesc rowCreated joined)

/-! ## Seeding (`roleCount.count === 0` block of `server.ts`) -/

/-- Run one seed `INSERT`.  A failed statement leaves the database
unchanged; in the real program an exception here would abort the whole seed
block, so the seeding theorems below carry hypotheses under which every seed
statement succeeds. -/
def runInsert (db : DB) (now : Nat) (t : String) (body : List (String × Value)) : DB :=
  match execInsert db now t (body.map Prod.fst) (body.map Prod.snd) with
  | .ok (T2, _) => dbSet db t T2
  | .error _ => db

def seedRoleBody (nm : String) (lvl : Int) (perms : String) : List (String × Value) :=
  [("name", Value.text nm), ("level", Value.int lvl), ("permissions", Value.text perms)]

/-- The four role inserts of the seed block, in order. -/
def seedRolesStep (db : DB) (now : Nat) : DB :=
  runInsert (runInsert (runInsert (runInsert db now "roles"
    (seedRoleBody "超级管理员" 1 "\x7b\"all\":true\x7d")) now "roles"
    (seedRoleBody "部门管理员" 2 "\x7b\"dept\":true\x7d")) now "roles"
    (seedRoleBody "普通员工" 3 "\x7b\"self\":true\x7d")) now "roles"
    (seedRoleBody "只读用户" 4 "\x7b\"read\":true\x7d")

/-- `SELECT id FROM roles WHERE name = '超级管理员'` (first match wins). -/
def adminRoleId (db : DB) : Nat :=
  match dbLookup db "roles" with
  | some rt2 =>
    match rt2.rows.find? (fun r => decide (getVal r.vals "name" = Value.text "超级管理员")) with
    | some r => r.id
    | Option.none => 0
  | Option.none => 0

def seedUserBody (rid : Nat) : List (String × Value) :=
  [("username", Value.text "admin"), ("password", Value.text "admin123"),
   ("role_id", Value.int rid), ("department", Value.text "总部")]

def seedLead1Body : List (String × Value) :=
  [("name", Value.text "Tech Solutions Inc"), ("contact_person", Value.text "Alice Smith"),
   ("phone", Value.text "123-456-7890"), ("email", Value.text "alice@tech.com"),
   ("source", Value.text "官网"), ("level", Value.text "A"),
   ("status", Value.text "跟进中"), ("owner_id", Value.int 1)]

def seedLead2Body : List (String × Value) :=
  [("name", Value.text "Green Energy Co"), ("contact_person", Value.text "Bob Brown"),
   ("phone", Value.text "098-765-4321"), ("email", Value.text "bob@green.com"),
   ("source", Value.text "推荐"), ("level", Value.text "B"),
   ("status", Value.text "未跟进"), ("owner_id", Value.int 1)]

def seedCustomerBody : List (String × Value) :=
  [("name", Value.text "Global Logistics"), ("type", Value.text "企业"),
   ("industry", Value.text "物流"), ("contact_person", Value.text "Charlie Davis"),
   ("phone", Value.text "555-0199"), ("address", Value.text "123 Main St"),
   ("level", Value.text "VIP"), ("status", Value.text "合作中"), ("owner_id", Value.int 1)]

def seedOpportunityBody : List (String × Value) :=
  [("name", Value.text "Q1 Software Upgrade"), ("customer_id", Value.int 1),
   ("stage", Value.text "初步沟通"), ("probability", Value.int 20),
   ("amount", Value.int 50000), ("expected_date", Value.text "2026-06-01"),
   ("owner_id", Value.int 1)]

/-- The seed block: if (and only if) `SELECT COUNT(*) FROM roles` is zero,
insert the four roles, the admin user (with the freshly looked-up admin role
id), two leads, one customer and one opportunity. -/
def seedIfEmpty (db : DB) (now : Nat) : DB :=
  match dbLookup db "roles" with
  | Option.none => db
  | some rt =>
    if rt.rows.length = 0 then
      let db4 := seedRolesStep db now
      let db5 := runInsert db4 now "users" (seedUserBody (adminRoleId db4))
      let db6 := runInsert db5 now "leads" seedLead1Body
      let db7 := runInsert db6 now "leads" seedLead2Body
      let db8 := runInsert db7 now "customers" seedCustomerBody
      runInsert db8 now "opportunities" seedOpportunityBody
    else db

/-- Number of rows currently in table `t`. -/
def rowCount (db : DB) (t : String) : Nat :=
  match dbLookup db t with
  | some T => T.rows.length
  | Option.none => 0

/-! ## Helper lemmas -/

lemma memB_iff (x : String) (l : List String) : memB x l = true ↔ x ∈ l := by
  induction l with
  | nil => simp [memB]
  | cons y t ih =>
    by_cases h : y = x
    · subst h; simp [memB]
    · have h' : ¬ x = y := fun hh => h hh.symm
      simp [memB, h, h', ih]

lemma hasKey_of_mem_keys {vals : List (String × Value)} {c : String}
    (h : c ∈ vals.map Prod.fst) : hasKey vals c = true := by
  induction vals with
  | nil => simp at h
  | cons p t ih =>
    cases p with
    | mk k w =>
      by_cases hk : k = c
      · simp [hasKey, hk]
      · have hmem : c ∈ t.map Prod.fst := by
          simp only [List.map_cons, List.mem_cons] at h
          rcases h with h | h
          · exact absurd h.symm hk
          · exact h
        simp [hasKey, hk, ih hmem]

lemma hasKey_setField (vals : List (String × Value)) (c c' : String) (v : Value) :
    hasKey (setField vals c v) c' = hasKey vals c' := by
  induction vals with
  | nil => simp [setField]
  | cons p t ih =>
    cases p with
    | mk k w =>
      by_cases hk : k = c
      · subst hk
        simp only [setField, if_pos rfl, hasKey, ih]
      · simp only [setField, if_neg hk, hasKey, ih]

lemma setField_get_ne {c c' : String} (h : c' ≠ c) (vals : List (String × Value)) (v : Value) :
    getVal (setField vals c v) c' = getVal vals c' := by
  induction vals with
  | nil => simp [setField]
  | cons p t ih =>
    cases p with
    | mk k w =>
      by_cases hk : k = c
      · subst hk
        have hkc : ¬ k = c' := fun hh => h hh.symm
        simp only [setField, if_pos rfl, getVal, if_neg hkc, ih]
      · simp only [setField, if_neg hk, getVal, ih]

lemma setField_get_self {vals : List (String × Value)} {c : String}
    (h : hasKey vals c = true) (v : Value) : getVal (setField vals c v) c = v := by
  induction vals with
  | nil => simp [hasKey] at h
  | cons p t ih =>
    cases p with
    | mk k w =>
      by_cases hk : k = c
      · subst hk
        simp [setField, getVal]
      · simp only [hasKey, if_neg hk] at h
        simp only [setField, if_neg hk, getVal, if_neg hk, ih h]

lemma firstNotIn_eq_none {names cols : List String}
    (h : ∀ c ∈ cols, memB c names = true) : firstNotIn names cols = none := by
  induction cols with
  | nil => simp [firstNotIn]
  | cons c t ih =>
    have hc := h c (by simp)
    simp only [firstNotIn, hc, if_true]
    exact ih (fun c' hc' => h c' (by simp [hc']))

lemma firstNotIn_some_of {names cols : List String} {k : String}
    (hk : k ∈ cols) (hbad : memB k names = false) :
    ∃ kk, firstNotIn names cols = some kk ∧ memB kk names = false := by
  induction cols with
  | nil => simp at hk
  | cons c t ih =>
    by_cases hc : memB c names = true
    · simp only [firstNotIn, hc, if_true]
      rcases List.mem_cons.mp hk with rfl | hmem
      · rw [hc] at hbad; cases hbad
      · exact ih hmem
    · have hcb : memB c names = false := by simpa using hc
      refine ⟨c, ?_, hcb⟩
      simp [firstNotIn, hcb]

lemma dbLookup_dbSet_self {db : DB} {t : String} {T : Table} (T' : Table)
    (h : dbLookup db t = some T) : dbLookup (dbSet db t T') t = some T' := by
  induction db with
  | nil => simp [dbLookup] at h
  | cons p rest ih =>
    cases p with
    | mk n Tn =>
      by_cases hn : n = t
      · subst hn; simp [dbLookup, dbSet]
      · simp only [dbLookup, if_neg hn] at h
        simp only [dbSet, if_neg hn, dbLookup, if_neg hn]
        exact ih h

lemma dbSet_lookup_self {db : DB} {t : String} {T : Table}
    (h : dbLookup db t = some T) : dbSet db t T = db := by
  induction db with
  | nil => simp [dbSet]
  | cons p rest ih =>
    cases p with
    | mk n Tn =>
      by_cases hn : n = t
      · subst hn
        have h2 : Tn = T := by simpa [dbLookup] using h
        subst h2
        simp [dbSet]
      · simp only [dbLookup, if_neg hn] at h
        simp [dbSet, hn, ih h]

lemma updRows_no_match {rows : List Row} {id : Nat} (now : Nat) (sets : List (String × Rhs))
    (h : ∀ r ∈ rows, r.id ≠ id) :
    rows.map (fun r => if r.id = id then Row.mk r.id (applySets now sets r.vals) else r) = rows := by
  induction rows with
  | nil => simp
  | cons r t ih =>
    have hr := h r (by simp)
    simp only [List.map_cons, if_neg hr, List.cons.injEq, true_and]
    exact ih (fun r' hr' => h r' (by simp [hr']))

lemma mkRow_keys (now : Nat) (schema : List Column) (cols : List String)
    (vals : List Value) (id : Nat) :
    (mkRow now schema cols vals id).vals.map Prod.fst = schema.map Column.name := by
  simp [mkRow, List.map_map]

lemma strLtB_asymm : ∀ as bs : List Char, strLtB as bs = true → strLtB bs as = false := by
  intro as
  induction as with
  | nil =>
    intro bs h
    cases bs with
    | nil => simp [strLtB] at h
    | cons b t => simp [strLtB]
  | cons a as ih =>
    intro bs h
    cases bs with
    | nil => simp [strLtB] at h
    | cons b bs' =>
      simp only [strLtB] at h ⊢
      by_cases h1 : a.toNat < b.toNat
      · have h2 : ¬ b.toNat < a.toNat := by omega
        simp [h1, h2]
      · by_cases h2 : b.toNat < a.toNat
        · simp [h1, h2] at h
        · simp only [h1, h2, if_false] at h
          simp only [h1, h2, if_false]
          exact ih bs' h

lemma strLtB_neg_trans :
    ∀ as bs cs : List Char, strLtB as bs = false → strLtB bs cs = false →
      strLtB as cs = false := by
  intro as
  induction as with
  | nil =>
    intro bs cs h1 h2
    cases bs with
    | nil => exact h2
    | cons b bs' => simp [strLtB] at h1
  | cons a as ih =>
    intro bs cs h1 h2
    cases cs with
    | nil => simp [strLtB]
    | cons c cs' =>
      cases bs with
      | nil => simp [strLtB] at h2
      | cons b bs' =>
        simp only [strLtB] at h1 h2 ⊢
        by_cases hab : a.toNat < b.toNat
        · simp [hab] at h1
        · by_cases hbc : b.toNat < c.toNat
          · simp [hbc] at h2
          · have hac : ¬ a.toNat < c.toNat := by omega
            by_cases hca : c.toNat < a.toNat
            · simp [hac, hca]
            · have hba : ¬ b.toNat < a.toNat := by omega
              have hcb : ¬ c.toNat < b.toNat := by omega
              simp only [hab, hba, if_false] at h1
              simp only [hbc, hcb, if_false] at h2
              simp only [hac, hca, if_false]
              exact ih bs' cs' h1 h2

lemma valLt_asymm : ∀ a b : Value, valLt a b = true → valLt b a = false := by
  intro a b h
  cases a <;> cases b <;> simp [valLt] at h ⊢
  · omega
  · exact strLtB_asymm _ _ h

lemma valLt_neg_trans : ∀ a b c : Value, valLt a b = false → valLt b c = false →
    valLt a c = false := by
  intro a b c h1 h2
  cases a <;> cases b <;> cases c <;> simp [valLt] at h1 h2 ⊢
  · omega
  · exact strLtB_neg_trans _ _ _ h1 h2

lemma mem_insertDesc (key : Row → Value) (r : Row) (l : List Row) (a : Row) :
    a ∈ insertDesc key r l ↔ a = r ∨ a ∈ l := by
  induction l with
  | nil => simp [insertDesc]
  | cons x xs ih =>
    simp only [insertDesc]
    by_cases h : valLt (key r) (key x) = true
    · simp only [h, if_true, List.mem_cons, ih]
      tauto
    · simp only [h, if_false, Bool.false_eq_true, List.mem_cons]

lemma mem_sortDesc (key : Row → Value) (l : List Row) (a : Row) :
    a ∈ sortDesc key l ↔ a ∈ l := by
  induction l with
  | nil => simp [sortDesc]
  | cons r rs ih => simp [sortDesc, mem_insertDesc, ih]

lemma pairwise_insertDesc (key : Row → Value) (r : Row) (l : List Row)
    (h : l.Pairwise (fun x y => valLt (key x) (key y) = false)) :
    (insertDesc key r l).Pairwise (fun x y => valLt (key x) (key y) = false) := by
  induction l with
  | nil => simp [insertDesc]
  | cons x xs ih =>
    rcases List.pairwise_cons.mp h with ⟨hx, hxs⟩
    simp only [insertDesc]
    by_cases hlt : valLt (key r) (key x) = true
    · simp only [hlt, if_true]
      refine List.pairwise_cons.mpr ⟨?_, ih hxs⟩
      intro y hy
      rcases (mem_insertDesc key r xs y).mp hy with rfl | hy'
      · exact valLt_asymm _ _ hlt
      · exact hx y hy'
    · have hlt' : valLt (key r) (key x) = false := by simpa using hlt
      simp only [hlt, if_false, Bool.false_eq_true]
      refine List.pairwise_cons.mpr ⟨?_, h⟩
      intro y hy
      rcases List.mem_cons.mp hy with rfl | hy'
      · exact hlt'
      · exact valLt_neg_trans _ _ _ hlt' (hx y hy')

lemma pairwise_sortDesc (key : Row → Value) (l : List Row) :
    (sortDesc key l).Pairwise (fun x y => valLt (key x) (key y) = false) := by
  induction l with
  | nil => simp [sortDesc]
  | cons r rs ih => exact pairwise_insertDesc key r _ ih

lemma mem_listJoin (ls : List (List Row)) (a : Row) :
    a ∈ listJoin ls ↔ ∃ l ∈ ls, a ∈ l := by
  induction ls with
  | nil => simp [listJoin]
  | cons l ls ih => simp [listJoin, ih]

/-- C10: for every module string, `create(module, {})` with an empty field
mapping builds `INSERT INTO module () VALUES ()` (empty column and value
lists, visible in the trace), which the storage engine rejects as malformed
SQL; the call fails and the database — in particular the module's table — is
unchanged. -/
theorem c10_empty_create_is_storage_error (db : DB) (now : Nat) (module : String) :
    createHandler db now module [] =
      ⟨.error (.storage .malformedSql), db, [Stmt.insertInto module [] []]⟩ := rfl

/-- C1 (code bug): the allow-list is enforced only by the list handler —
`listHandler` on the non-allow-listed module `"users"` fails with
`invalidModule`, leaves the database unchanged and hands no statement to the
storage engine — but `createHandler` on the same module performs full storage
access: it executes an `INSERT INTO users`, returns the fresh id, and grows
the `users` table, contradicting the claim that all five operations fail with
`InvalidModule` without storage access. -/
theorem c1_create_bypasses_allowlist :
    listHandler initDB "users" ⟨Option.none, Option.none, Option.none, Value.int 0⟩ =
      ⟨.error ApiError.invalidModule, initDB, []⟩ ∧
    (createHandler initDB 7 "users" [("username", Value.text "eve")]).result = .ok 1 ∧
    (createHandler initDB 7 "users" [("username", Value.text "eve")]).trace =
      [Stmt.insertInto "users" ["username"] [Value.text "eve"]] ∧
    rowCount (createHandler initDB 7 "users" [("username", Value.text "eve")]).db "users" = 1 :=
  ⟨rfl, rfl, rfl, rfl⟩

/-- C6 (code bug): the generic list query interpolates `name LIKE ? OR
contact_person LIKE ?` for every module, but the `opportunities`, `contracts`
and `activities` tables have no `contact_person` column, so `list` with a
non-empty `q` fails at statement preparation with `no such column:
contact_person` instead of returning substring matches. -/
theorem c6_q_search_fails_on_three_modules :
    (listHandler initDB "opportunities"
        ⟨some "a", Option.none, Option.none, Value.int 0⟩).result =
      .error (.storage (.noSuchColumn "contact_person")) ∧
    (listHandler initDB "contracts"
        ⟨some "a", Option.none, Option.none, Value.int 0⟩).result =
      .error (.storage (.noSuchColumn "contact_person")) ∧
    (listHandler initDB "activities"
        ⟨some "a", Option.none, Option.none, Value.int 0⟩).result =
      .error (.storage (.noSuchColumn "contact_person")) :=
  ⟨rfl, rfl, rfl⟩

/-- C3 counterexample: on the freshly created database the `leads` table is
empty, yet `update`, `softDelete` and `restore` on the nonexistent id 1 all
report success (`{success: true}`) — none of them fails with `NotFound`,
because the handlers ignore the affected-row count. -/
theorem c3_counterexample_missing_id_reports_success :
    rowCount initDB "leads" = 0 ∧
    (updateHandler initDB 4 "leads" 1 [("status", Value.text "有意向")]).result = .ok () ∧
    (softDeleteHandler initDB 4 "leads" 1).result = .ok () ∧
    (restoreHandler initDB "leads" 1).result = .ok () :=
  ⟨rfl, rfl, rfl, rfl⟩

/-- C7 counterexample: the seeded database has an opportunity with id 1, but
`update("opportunities", 1, {status: ...})` does not change the status field
and `updated_at`: the `opportunities` table has no `status` column (its
pipeline column is `stage`), so the UPDATE fails at preparation with `no such
column: status` and the record — including `updated_at` — is unchanged. -/
theorem c7_counterexample_status_update_on_opportunities :
    rowCount (seedIfEmpty initDB 0) "opportunities" = 1 ∧
    (updateHandler (seedIfEmpty initDB 0) 9 "opportunities" 1
        [("status", Value.text "赢单")]).result =
      .error (.storage (.noSuchColumn "status")) ∧
    (updateHandler (seedIfEmpty initDB 0) 9 "opportunities" 1
        [("status", Value.text "赢单")]).db = seedIfEmpty initDB 0 :=
  ⟨rfl, rfl, rfl⟩

/-- C8 counterexample: after creating a comment for `("leads", 5)` whose
`user_id` 99 matches no user, the comment store does hold exactly that
comment for the pair, yet `listFor("leads", 5)` returns the empty list — the
INNER JOIN with `users` silently drops comments whose `user_id` matches no
existing user, contradicting the claim that such comments are included. -/
theorem c8_counterexample_dangling_user_comment_dropped :
    commentsListHandler (createHandler initDB 3 "comments"
        [("entity_type", Value.text "leads"), ("entity_id", Value.int 5),
         ("user_id", Value.int 99), ("content", Value.text "hi")]).db "leads" 5 = .ok [] ∧
    ((dbLookup (createHandler initDB 3 "comments"
        [("entity_type", Value.text "leads"), ("entity_id", Value.int 5),
         ("user_id", Value.int 99), ("content", Value.text "hi")]).db "comments").map
      (fun T => T.rows.map (fun c =>
        (getVal c.vals "entity_type", getVal c.vals "entity_id", getVal c.vals "user_id")))) =
      some [(Value.text "leads", Value.int 5, Value.int 99)] :=
  ⟨rfl, rfl⟩

/-! ## Witness fixtures: a single created lead, before and after soft delete -/

def acmeDb : DB := (createHandler initDB 0 "leads" [("name", Value.text "Acme")]).db

def acmeRow : Row :=
  ⟨1, [("name", Value.text "Acme"), ("contact_person", Value.null), ("phone", Value.null),
       ("email", Value.null), ("source", Value.null), ("level", Value.null),
       ("status", Value.text "未跟进"), ("owner_id", Value.null),
       ("created_at", Value.int 0), ("updated_at", Value.int 0),
       ("is_deleted", Value.int 0), ("deleted_at", Value.null)]⟩

def acmeLeads : Table := ⟨leadsCols, 2, [acmeRow]⟩

def acmeDelDb : DB := (softDeleteHandler acmeDb 1 "leads" 1).db

def acmeDelRow : Row :=
  ⟨1, [("name", Value.text "Acme"), ("contact_person", Value.null), ("phone", Value.null),
       ("email", Value.null), ("source", Value.null), ("level", Value.null),
       ("status", Value.text "未跟进"), ("owner_id", Value.null),
       ("created_at", Value.int 0), ("updated_at", Value.int 0),
       ("is_deleted", Value.int 1), ("deleted_at", Value.int 1)]⟩

/-! ## More helper lemmas -/

lemma mem_schema_of_memB {c : String} {schema : List Column}
    (h : memB c (colNames schema) = true) (hc : c ≠ "id") : c ∈ schema.map Column.name := by
  have hmem := (memB_iff _ _).mp h
  simp only [colNames, List.mem_cons] at hmem
  rcases hmem with h' | h'
  · exact absurd h' hc
  · exact h'

lemma hasKey_of_wf {r : Row} {schema : List Column} {c : String}
    (hwf : r.vals.map Prod.fst = schema.map Column.name)
    (hc : c ∈ schema.map Column.name) : hasKey r.vals c = true :=
  hasKey_of_mem_keys (by rw [hwf]; exact hc)

lemma execUpdate_ok_of_cols {db : DB} {module : String} {T : Table} (now : Nat)
    (sets : List (String × Rhs)) (id : Nat)
    (hT : dbLookup db module = some T)
    (hcols : ∀ c ∈ sets.map Prod.fst, memB c (colNames T.schema) = true) :
    execUpdate db now module sets id =
      .ok (⟨T.schema, T.nextId,
        T.rows.map (fun r => if r.id = id then Row.mk r.id (applySets now sets r.vals) else r)⟩,
        T.rows.countP (fun r => r.id == id)) := by
  simp [execUpdate, hT, firstNotIn_eq_none hcols]

lemma listHandler_ok_is_deleted {db : DB} {module : String} {lq : ListQuery} {rs : List Row}
    (h : (listHandler db module lq).result = .ok rs) :
    ∀ r ∈ rs, getVal r.vals "is_deleted" = lq.is_deleted := by
  intro r hr
  unfold listHandler at h
  by_cases hm : memB module validModules = true
  · rw [if_pos hm] at h
    cases hsel : execSelect db module lq.is_deleted lq.q lq.status with
    | error e => rw [hsel] at h; simp at h
    | ok rows =>
      rw [hsel] at h
      simp only [Except.ok.injEq] at h
      subst h
      unfold execSelect at hsel
      cases hdb : dbLookup db module with
      | none => rw [hdb] at hsel; simp at hsel
      | some T =>
        simp only [hdb] at hsel
        cases hok : selectColsOk (colNames T.schema) lq.q lq.status with
        | some c => simp only [hok] at hsel; simp at hsel
        | none =>
          simp only [hok, Except.ok.injEq] at hsel
          subst hsel
          have hmem := (mem_sortDesc _ _ _).mp hr
          have hp := (List.mem_filter.mp hmem).2
          unfold rowPred at hp
          simp only [Bool.and_eq_true, decide_eq_true_eq] at hp
          exact hp.1.1
  · rw [if_neg hm] at h
    simp at h

/-- C2: for every module whose table exists and every field mapping
containing a key that is not a column of that table, `create` fails with the
storage layer's unknown-column rejection (`no such column`, the `UnknownField`
failure of the contract) and creates no row: the database, hence the table's
row set, is unchanged. -/
theorem c2_unknown_field_rejected (db : DB) (now : Nat) (module : String)
    (body : List (String × Value)) (T : Table) (k : String)
    (hT : dbLookup db module = some T)
    (hk : k ∈ body.map Prod.fst)
    (hbad : memB k (colNames T.schema) = false) :
    (∃ kk, memB kk (colNames T.schema) = false ∧
      (createHandler db now module body).result = .error (.storage (.noSuchColumn kk))) ∧
    (createHandler db now module body).db = db := by
  obtain ⟨kk, hfind, hkk⟩ := firstNotIn_some_of hk hbad
  have hemp : (body.map Prod.fst).isEmpty = false := by
    cases body with
    | nil => simp at hk
    | cons p t => simp
  refine ⟨⟨kk, hkk, ?_⟩, ?_⟩ <;>
    simp [createHandler, execInsert, hemp, hT, hfind]

/-- Witness for C2: `create("leads", {nonexistent_col: 1})` on the fresh
database fails with `no such column` and leaves the database unchanged. -/
theorem c2_unknown_field_rejected_witness :
    (∃ kk, memB kk (colNames (mkTable leadsCols).schema) = false ∧
      (createHandler initDB 0 "leads" [("nonexistent_col", Value.int 1)]).result =
        .error (.storage (.noSuchColumn kk))) ∧
    (createHandler initDB 0 "leads" [("nonexistent_col", Value.int 1)]).db = initDB :=
  c2_unknown_field_rejected initDB 0 "leads" [("nonexistent_col", Value.int 1)]
    (mkTable leadsCols) "nonexistent_col" rfl (by simp) (by decide)

/-- C4: whenever the default list call (`is_deleted` filter 0) succeeds, no
returned record has `is_deleted = 1` (each satisfies `is_deleted = 0`), and
whenever the list call with `is_deleted = 1` succeeds, every returned record
has `is_deleted = 1`. -/
theorem c4_default_list_filters_deleted (db : DB) (module : String) (rs rsd : List Row) :
    ((listHandler db module ⟨Option.none, Option.none, Option.none, Value.int 0⟩).result =
        .ok rs → ∀ r ∈ rs, getVal r.vals "is_deleted" = Value.int 0) ∧
    ((listHandler db module ⟨Option.none, Option.none, Option.none, Value.int 1⟩).result =
        .ok rsd → ∀ r ∈ rsd, getVal r.vals "is_deleted" = Value.int 1) :=
  ⟨fun h => listHandler_ok_is_deleted h, fun h => listHandler_ok_is_deleted h⟩

/-- Witness for C4 on a created lead: the default list of `acmeDb` returns
the live row (`is_deleted = 0`), and after soft-deleting it the
`is_deleted = 1` list returns the deleted row. -/
theorem c4_default_list_filters_deleted_witness :
    getVal acmeRow.vals "is_deleted" = Value.int 0 ∧
    getVal acmeDelRow.vals "is_deleted" = Value.int 1 :=
  ⟨(c4_default_list_filters_deleted acmeDb "leads" [acmeRow] []).1 rfl acmeRow (by simp),
   (c4_default_list_filters_deleted acmeDelDb "leads" [] [acmeDelRow]).2 rfl acmeDelRow (by simp)⟩

/-- C3 (amended): on a module whose table exists but contains no row with the
requested id, `update`, `softDelete` and `restore` all report success while
changing nothing — the generated UPDATE affects zero rows and the handlers
ignore the affected-row count, so no `NotFound` is surfaced. -/
theorem c3_amended_missing_id_reports_success (db : DB) (now : Nat) (module : String)
    (id : Nat) (T : Table) (body : List (String × Value))
    (hT : dbLookup db module = some T)
    (hnone : ∀ r ∈ T.rows, r.id ≠ id)
    (hbody : body ≠ [])
    (hcols : ∀ c ∈ body.map Prod.fst, memB c (colNames T.schema) = true)
    (hup : memB "updated_at" (colNames T.schema) = true)
    (hdel : memB "is_deleted" (colNames T.schema) = true)
    (hdelat : memB "deleted_at" (colNames T.schema) = true) :
    ((updateHandler db now module id body).result = .ok () ∧
      (updateHandler db now module id body).db = db) ∧
    ((softDeleteHandler db now module id).result = .ok () ∧
      (softDeleteHandler db now module id).db = db) ∧
    ((restoreHandler db module id).result = .ok () ∧
      (restoreHandler db module id).db = db) := by
  have hbe : body.isEmpty = false := by
    cases body with
    | nil => exact absurd rfl hbody
    | cons p t => rfl
  have key : ∀ (nw : Nat) (sets : List (String × Rhs)),
      (∀ c ∈ sets.map Prod.fst, memB c (colNames T.schema) = true) →
      execUpdate db nw module sets id = .ok (T, T.rows.countP (fun r => r.id == id)) := by
    intro nw sets hs
    rw [execUpdate_ok_of_cols nw sets id hT hs]
    rw [updRows_no_match nw sets hnone]
  have hupd := key now (body.map (fun p => (p.1, Rhs.param p.2)) ++ [("updated_at", Rhs.now)])
    (by
      intro c hc
      simp only [List.map_append, List.map_map, List.mem_append] at hc
      rcases hc with hc | hc
      · exact hcols c (by simpa using hc)
      · simp at hc; subst hc; exact hup)
  have hsoft := key now [("is_deleted", Rhs.lit (Value.int 1)), ("deleted_at", Rhs.now)]
    (by
      intro c hc
      simp only [List.map_cons, List.map_nil, List.mem_cons, List.mem_singleton] at hc
      rcases hc with rfl | hc
      · exact hdel
      · simp at hc; subst hc; exact hdelat)
  have hrest := key 0 [("is_deleted", Rhs.lit (Value.int 0)), ("deleted_at", Rhs.lit Value.null)]
    (by
      intro c hc
      simp only [List.map_cons, List.map_nil, List.mem_cons, List.mem_singleton] at hc
      rcases hc with rfl | hc
      · exact hdel
      · simp at hc; subst hc; exact hdelat)
  refine ⟨⟨?_, ?_⟩, ⟨?_, ?_⟩, ⟨?_, ?_⟩⟩ <;>
    simp [updateHandler, softDeleteHandler, restoreHandler, hbe, hupd, hsoft, hrest,
      dbSet_lookup_self hT]

/-- Witness for C3 (amended) at the empty `leads` table and id 1. -/
theorem c3_amended_missing_id_reports_success_witness :
    ((updateHandler initDB 4 "leads" 1 [("status", Value.text "有意向")]).result = .ok () ∧
      (updateHandler initDB 4 "leads" 1 [("status", Value.text "有意向")]).db = initDB) ∧
    ((softDeleteHandler initDB 4 "leads" 1).result = .ok () ∧
      (softDeleteHandler initDB 4 "leads" 1).db = initDB) ∧
    ((restoreHandler initDB "leads" 1).result = .ok () ∧
      (restoreHandler initDB "leads" 1).db = initDB) :=
  c3_amended_missing_id_reports_success initDB 4 "leads" 1 (mkTable leadsCols)
    [("status", Value.text "有意向")] rfl (by simp [mkTable]) (by simp)
    (by decide) (by decide) (by decide) (by decide)

/-- C7 (amended): on a module whose table has a `status` column (leads,
customers, contracts, activities), updating only `status` on an existing
record succeeds, sets `status` to the supplied value and `updated_at` to the
current time, leaves every other field of the record byte-identical and keeps
all other rows; on a table without a `status` column (opportunities), the same
call fails at statement preparation with `no such column: status` and leaves
the database unchanged. -/
theorem c7_amended_status_update_isolates_fields (db : DB) (now : Nat) (module : String)
    (id : Nat) (T : Table) (r : Row) (v : Value)
    (hT : dbLookup db module = some T)
    (hup : memB "updated_at" (colNames T.schema) = true)
    (hr : r ∈ T.rows) (hid : r.id = id)
    (hwf : r.vals.map Prod.fst = T.schema.map Column.name) :
    (memB "status" (colNames T.schema) = true →
      (updateHandler db now module id [("status", v)]).result = .ok () ∧
      ∃ T2, dbLookup (updateHandler db now module id [("status", v)]).db module = some T2 ∧
        (∃ r2, r2 ∈ T2.rows ∧ r2.id = id ∧
          getVal r2.vals "status" = v ∧
          getVal r2.vals "updated_at" = Value.int now ∧
          ∀ c, c ≠ "status" → c ≠ "updated_at" → getVal r2.vals c = getVal r.vals c) ∧
        (∀ r', r' ∈ T.rows → r'.id ≠ id → r' ∈ T2.rows)) ∧
    (memB "status" (colNames T.schema) = false →
      (updateHandler db now module id [("status", v)]).result =
        .error (.storage (.noSuchColumn "status")) ∧
      (updateHandler db now module id [("status", v)]).db = db) := by
  constructor
  · intro hst
    have hsets : ∀ c ∈ (([("status", Rhs.param v), ("updated_at", Rhs.now)] :
        List (String × Rhs)).map Prod.fst), memB c (colNames T.schema) = true := by
      intro c hc
      simp only [List.map_cons, List.map_nil, List.mem_cons, List.not_mem_nil,
        or_false] at hc
      rcases hc with rfl | rfl
      · exact hst
      · exact hup
    have hexec := execUpdate_ok_of_cols now
      [("status", Rhs.param v), ("updated_at", Rhs.now)] id hT hsets
    have hdb2 : (updateHandler db now module id [("status", v)]).db =
        dbSet db module ⟨T.schema, T.nextId,
          T.rows.map (fun rr => if rr.id = id then
            Row.mk rr.id (applySets now
              [("status", Rhs.param v), ("updated_at", Rhs.now)] rr.vals)
            else rr)⟩ := by
      simp [updateHandler, hexec]
    have hkeyst : hasKey r.vals "status" = true :=
      hasKey_of_wf hwf (mem_schema_of_memB hst (by decide))
    have hkeyup : hasKey r.vals "updated_at" = true :=
      hasKey_of_wf hwf (mem_schema_of_memB hup (by decide))
    have hA : applySets now [("status", Rhs.param v), ("updated_at", Rhs.now)] r.vals =
        setField (setField r.vals "status" v) "updated_at" (Value.int now) := rfl
    refine ⟨by simp [updateHandler, hexec], ?_⟩
    refine ⟨_, by rw [hdb2]; exact dbLookup_dbSet_self _ hT, ?_, ?_⟩
    · refine ⟨Row.mk r.id (applySets now
        [("status", Rhs.param v), ("updated_at", Rhs.now)] r.vals),
        List.mem_map.mpr ⟨r, hr, by simp [hid]⟩, hid, ?_, ?_, ?_⟩
      · show getVal _ "status" = v
        rw [hA, setField_get_ne (by decide), setField_get_self hkeyst]
      · show getVal _ "updated_at" = Value.int now
        rw [hA, setField_get_self (by rw [hasKey_setField]; exact hkeyup)]
      · intro c hc1 hc2
        show getVal _ c = getVal r.vals c
        rw [hA, setField_get_ne hc2, setField_get_ne hc1]
    · intro r' hr' hne
      exact List.mem_map.mpr ⟨r', hr', by simp [hne]⟩
  · intro hst
    have hfi : firstNotIn (colNames T.schema) ["status", "updated_at"] = some "status" := by
      simp [firstNotIn, hst]
    have hexec : execUpdate db now module
        [("status", Rhs.param v), ("updated_at", Rhs.now)] id =
        .error (.noSuchColumn "status") := by
      simp [execUpdate, hT, hfi]
    exact ⟨by simp [updateHandler, hexec], by simp [updateHandler, hexec]⟩

/-- Witness for C7 (amended): updating only `status` on the created lead. -/
theorem c7_amended_status_update_isolates_fields_witness :
    (updateHandler acmeDb 5 "leads" 1 [("status", Value.text "有意向")]).result = .ok () ∧
    ∃ T2, dbLookup (updateHandler acmeDb 5 "leads" 1
        [("status", Value.text "有意向")]).db "leads" = some T2 ∧
      (∃ r2, r2 ∈ T2.rows ∧ r2.id = 1 ∧
        getVal r2.vals "status" = Value.text "有意向" ∧
        getVal r2.vals "updated_at" = Value.int 5 ∧
        ∀ c, c ≠ "status" → c ≠ "updated_at" →
          getVal r2.vals c = getVal acmeRow.vals c) ∧
      (∀ r', r' ∈ acmeLeads.rows → r'.id ≠ 1 → r' ∈ T2.rows) :=
  (c7_amended_status_update_isolates_fields acmeDb 5 "leads" 1 acmeLeads acmeRow
    (Value.text "有意向") rfl (by decide) (by simp [acmeLeads]) rfl (by decide)).1 (by decide)

/-- C5: for any record of an allowed module (with the module's usual
soft-delete columns and row layout), `softDelete` then `restore` yields a
record with the same id whose every field except `is_deleted`, `deleted_at`
and `updated_at` equals its pre-delete value (in fact `updated_at` is also
untouched), with `is_deleted = 0` and `deleted_at = NULL`, and that record
reappears in the default `list` output. -/
theorem c5_softdelete_restore_roundtrip (db : DB) (n1 : Nat) (module : String)
    (id : Nat) (T : Table) (r : Row)
    (hmod : memB module validModules = true)
    (hT : dbLookup db module = some T)
    (hdel : memB "is_deleted" (colNames T.schema) = true)
    (hdelat : memB "deleted_at" (colNames T.schema) = true)
    (hcre : memB "created_at" (colNames T.schema) = true)
    (hr : r ∈ T.rows) (hid : r.id = id)
    (hwf : r.vals.map Prod.fst = T.schema.map Column.name) :
    ∃ T2 r2,
      dbLookup (restoreHandler (softDeleteHandler db n1 module id).db module id).db module
        = some T2 ∧
      r2 ∈ T2.rows ∧ r2.id = id ∧
      getVal r2.vals "is_deleted" = Value.int 0 ∧
      getVal r2.vals "deleted_at" = Value.null ∧
      (∀ c, c ≠ "is_deleted" → c ≠ "deleted_at" → c ≠ "updated_at" →
        getVal r2.vals c = getVal r.vals c) ∧
      ∃ rs, (listHandler (restoreHandler (softDeleteHandler db n1 module id).db module id).db
          module ⟨Option.none, Option.none, Option.none, Value.int 0⟩).result = .ok rs ∧
        r2 ∈ rs := by
  have hsoftsets : ∀ c ∈ (([("is_deleted", Rhs.lit (Value.int 1)), ("deleted_at", Rhs.now)] :
      List (String × Rhs)).map Prod.fst), memB c (colNames T.schema) = true := by
    intro c hc
    simp only [List.map_cons, List.map_nil, List.mem_cons, List.not_mem_nil, or_false] at hc
    rcases hc with rfl | rfl
    · exact hdel
    · exact hdelat
  have hrestsets : ∀ c ∈ (([("is_deleted", Rhs.lit (Value.int 0)),
      ("deleted_at", Rhs.lit Value.null)] :
      List (String × Rhs)).map Prod.fst), memB c (colNames T.schema) = true := by
    intro c hc
    simp only [List.map_cons, List.map_nil, List.mem_cons, List.not_mem_nil, or_false] at hc
    rcases hc with rfl | rfl
    · exact hdel
    · exact hdelat
  have hexec1 := execUpdate_ok_of_cols n1
    [("is_deleted", Rhs.lit (Value.int 1)), ("deleted_at", Rhs.now)] id hT hsoftsets
  have hdb1 : (softDeleteHandler db n1 module id).db =
      dbSet db module ⟨T.schema, T.nextId, T.rows.map (fun rr => if rr.id = id then
        Row.mk rr.id (applySets n1
          [("is_deleted", Rhs.lit (Value.int 1)), ("deleted_at", Rhs.now)] rr.vals)
        else rr)⟩ := by
    simp [softDeleteHandler, hexec1]
  have hT1 : dbLookup (softDeleteHandler db n1 module id).db module =
      some ⟨T.schema, T.nextId, T.rows.map (fun rr => if rr.id = id then
        Row.mk rr.id (applySets n1
          [("is_deleted", Rhs.lit (Value.int 1)), ("deleted_at", Rhs.now)] rr.vals)
        else rr)⟩ := by
    rw [hdb1]; exact dbLookup_dbSet_self _ hT
  have hexec2 := execUpdate_ok_of_cols 0
    [("is_deleted", Rhs.lit (Value.int 0)), ("deleted_at", Rhs.lit Value.null)] id hT1 hrestsets
  have hdb2 : (restoreHandler (softDeleteHandler db n1 module id).db module id).db =
      dbSet (softDeleteHandler db n1 module id).db module ⟨T.schema, T.nextId,
        (T.rows.map (fun rr => if rr.id = id then
          Row.mk rr.id (applySets n1
            [("is_deleted", Rhs.lit (Value.int 1)), ("deleted_at", Rhs.now)] rr.vals)
          else rr)).map (fun rr => if rr.id = id then
          Row.mk rr.id (applySets 0
            [("is_deleted", Rhs.lit (Value.int 0)), ("deleted_at", Rhs.lit Value.null)] rr.vals)
          else rr)⟩ := by
    simp [restoreHandler, hexec2]
  have hT2 : dbLookup (restoreHandler (softDeleteHandler db n1 module id).db module id).db
      module = some ⟨T.schema, T.nextId,
        (T.rows.map (fun rr => if rr.id = id then
          Row.mk rr.id (applySets n1
            [("is_deleted", Rhs.lit (Value.int 1)), ("deleted_at", Rhs.now)] rr.vals)
          else rr)).map (fun rr => if rr.id = id then
          Row.mk rr.id (applySets 0
            [("is_deleted", Rhs.lit (Value.int 0)), ("deleted_at", Rhs.lit Value.null)] rr.vals)
          else rr)⟩ := by
    rw [hdb2]; exact dbLookup_dbSet_self _ hT1
  have hkdel : hasKey r.vals "is_deleted" = true :=
    hasKey_of_wf hwf (mem_schema_of_memB hdel (by decide))
  have hkdelat : hasKey r.vals "deleted_at" = true :=
    hasKey_of_wf hwf (mem_schema_of_memB hdelat (by decide))
  have hvals2 : applySets 0
      [("is_deleted", Rhs.lit (Value.int 0)), ("deleted_at", Rhs.lit Value.null)]
      (applySets n1 [("is_deleted", Rhs.lit (Value.int 1)), ("deleted_at", Rhs.now)] r.vals) =
      setField (setField (setField (setField r.vals
        "is_deleted" (Value.int 1)) "deleted_at" (Value.int n1))
        "is_deleted" (Value.int 0)) "deleted_at" Value.null := rfl
  have hget_del : getVal (applySets 0
      [("is_deleted", Rhs.lit (Value.int 0)), ("deleted_at", Rhs.lit Value.null)]
      (applySets n1 [("is_deleted", Rhs.lit (Value.int 1)), ("deleted_at", Rhs.now)] r.vals))
      "is_deleted" = Value.int 0 := by
    rw [hvals2, setField_get_ne (by decide)]
    rw [setField_get_self (by rw [hasKey_setField, hasKey_setField]; exact hkdel)]
  have hget_delat : getVal (applySets 0
      [("is_deleted", Rhs.lit (Value.int 0)), ("deleted_at", Rhs.lit Value.null)]
      (applySets n1 [("is_deleted", Rhs.lit (Value.int 1)), ("deleted_at", Rhs.now)] r.vals))
      "deleted_at" = Value.null := by
    rw [hvals2]
    rw [setField_get_self (by
      rw [hasKey_setField, hasKey_setField, hasKey_setField]; exact hkdelat)]
  have hr2mem : Row.mk r.id (applySets 0
      [("is_deleted", Rhs.lit (Value.int 0)), ("deleted_at", Rhs.lit Value.null)]
      (applySets n1 [("is_deleted", Rhs.lit (Value.int 1)), ("deleted_at", Rhs.now)] r.vals)) ∈
      (T.rows.map (fun rr => if rr.id = id then
        Row.mk rr.id (applySets n1
          [("is_deleted", Rhs.lit (Value.int 1)), ("deleted_at", Rhs.now)] rr.vals)
        else rr)).map (fun rr => if rr.id = id then
        Row.mk rr.id (applySets 0
          [("is_deleted", Rhs.lit (Value.int 0)), ("deleted_at", Rhs.lit Value.null)] rr.vals)
        else rr) :=
    List.mem_map.mpr ⟨Row.mk r.id (applySets n1
        [("is_deleted", Rhs.lit (Value.int 1)), ("deleted_at", Rhs.now)] r.vals),
      List.mem_map.mpr ⟨r, hr, by simp [hid]⟩, by simp [hid]⟩
  refine ⟨_, Row.mk r.id (applySets 0
      [("is_deleted", Rhs.lit (Value.int 0)), ("deleted_at", Rhs.lit Value.null)]
      (applySets n1 [("is_deleted", Rhs.lit (Value.int 1)), ("deleted_at", Rhs.now)] r.vals)),
    hT2, hr2mem, hid, hget_del, hget_delat, ?_, ?_⟩
  · intro c hc1 hc2 _
    show getVal _ c = getVal r.vals c
    rw [hvals2, setField_get_ne hc2, setField_get_ne hc1,
      setField_get_ne hc2, setField_get_ne hc1]
  · have hok : selectColsOk (colNames T.schema) Option.none Option.none = none := by
      simp [selectColsOk, hdel, hcre]
    refine ⟨sortDesc rowCreated (List.filter
        (rowPred (Value.int 0) Option.none Option.none)
        ((T.rows.map (fun rr => if rr.id = id then
          Row.mk rr.id (applySets n1
            [("is_deleted", Rhs.lit (Value.int 1)), ("deleted_at", Rhs.now)] rr.vals)
          else rr)).map (fun rr => if rr.id = id then
          Row.mk rr.id (applySets 0
            [("is_deleted", Rhs.lit (Value.int 0)), ("deleted_at", Rhs.lit Value.null)] rr.vals)
          else rr))), ?_, ?_⟩
    · simp [listHandler, hmod, execSelect, hT2, hok]
    · apply (mem_sortDesc _ _ _).mpr
      apply List.mem_filter.mpr
      refine ⟨hr2mem, ?_⟩
      simp [rowPred, hget_del]

/-- Witness for C5: the created lead soft-deleted at time 3 and restored. -/
theorem c5_softdelete_restore_roundtrip_witness :
    ∃ T2 r2,
      dbLookup (restoreHandler (softDeleteHandler acmeDb 3 "leads" 1).db "leads" 1).db "leads"
        = some T2 ∧
      r2 ∈ T2.rows ∧ r2.id = 1 ∧
      getVal r2.vals "is_deleted" = Value.int 0 ∧
      getVal r2.vals "deleted_at" = Value.null ∧
      (∀ c, c ≠ "is_deleted" → c ≠ "deleted_at" → c ≠ "updated_at" →
        getVal r2.vals c = getVal acmeRow.vals c) ∧
      ∃ rs, (listHandler (restoreHandler (softDeleteHandler acmeDb 3 "leads" 1).db "leads" 1).db
          "leads" ⟨Option.none, Option.none, Option.none, Value.int 0⟩).result = .ok rs ∧
        r2 ∈ rs :=
  c5_softdelete_restore_roundtrip acmeDb 3 "leads" 1 acmeLeads acmeRow
    (by decide) rfl (by decide) (by decide) (by decide) (by simp [acmeLeads]) rfl (by decide)

/-- C8 (amended): `listFor(entityType, entityId)` returns exactly the
comments stored for that pair whose `user_id` matches an existing user —
comments with a dangling `user_id` are dropped by the INNER JOIN — each
annotated with that user's `username`, ordered by creation time
newest-first. -/
theorem c8_amended_comments_join_existing_users (db : DB) (etype : String) (eid : Nat)
    (ct ut : Table) (out : List Row)
    (hct : dbLookup db "comments" = some ct)
    (hut : dbLookup db "users" = some ut)
    (hout : commentsListHandler db etype eid = .ok out) :
    (∀ a ∈ out, ∃ c u, c ∈ ct.rows ∧ u ∈ ut.rows ∧
        getVal c.vals "entity_type" = Value.text etype ∧
        getVal c.vals "entity_id" = Value.int eid ∧
        getVal c.vals "user_id" = Value.int u.id ∧
        a = Row.mk c.id (c.vals ++ [("username", getVal u.vals "username")])) ∧
    (∀ c u, c ∈ ct.rows → u ∈ ut.rows →
        getVal c.vals "entity_type" = Value.text etype →
        getVal c.vals "entity_id" = Value.int eid →
        getVal c.vals "user_id" = Value.int u.id →
        Row.mk c.id (c.vals ++ [("username", getVal u.vals "username")]) ∈ out) ∧
    out.Pairwise (fun a b =>
      valLt (getVal a.vals "created_at") (getVal b.vals "created_at") = false) := by
  have hout2 : sortDesc rowCreated (listJoin ((ct.rows.filter (fun c =>
      decide (getVal c.vals "entity_type" = Value.text etype)
      && decide (getVal c.vals "entity_id" = Value.int eid))).map (fun c =>
        (ut.rows.filter (fun u => decide (getVal c.vals "user_id" = Value.int u.id))).map
          (fun u => Row.mk c.id (c.vals ++ [("username", getVal u.vals "username")]))))) =
      out := by
    have h := hout
    simp only [commentsListHandler, hct, hut, Except.ok.injEq] at h
    exact h
  refine ⟨?_, ?_, ?_⟩
  · intro a ha
    rw [← hout2] at ha
    have hj := (mem_sortDesc _ _ _).mp ha
    obtain ⟨l, hl, hal⟩ := (mem_listJoin _ _).mp hj
    obtain ⟨c, hc, rfl⟩ := List.mem_map.mp hl
    obtain ⟨u, hu, rfl⟩ := List.mem_map.mp hal
    have hcf := List.mem_filter.mp hc
    have huf := List.mem_filter.mp hu
    simp only [Bool.and_eq_true, decide_eq_true_eq] at hcf huf
    exact ⟨c, u, hcf.1, huf.1, hcf.2.1, hcf.2.2, huf.2, rfl⟩
  · intro c u hc hu ht he hid
    rw [← hout2]
    apply (mem_sortDesc _ _ _).mpr
    apply (mem_listJoin _ _).mpr
    refine ⟨(ut.rows.filter (fun u => decide (getVal c.vals "user_id" = Value.int u.id))).map
        (fun u => Row.mk c.id (c.vals ++ [("username", getVal u.vals "username")])), ?_, ?_⟩
    · exact List.mem_map.mpr ⟨c, List.mem_filter.mpr ⟨hc, by simp [ht, he]⟩, rfl⟩
    · exact List.mem_map.mpr ⟨u, List.mem_filter.mpr ⟨hu, by simp [hid]⟩, rfl⟩
  · rw [← hout2]
    exact pairwise_sortDesc rowCreated _

/-- Witness for C8 (amended): one user and one comment referencing it. -/
theorem c8_amended_comments_join_existing_users_witness :
    Row.mk 1 ([("entity_type", Value.text "leads"), ("entity_id", Value.int 7),
        ("user_id", Value.int 1), ("content", Value.text "hi"),
        ("parent_id", Value.null), ("created_at", Value.int 2)] ++
      [("username", getVal [("username", Value.text "bob"), ("password", Value.null),
        ("role_id", Value.null), ("department", Value.null)] "username")]) ∈
      [⟨1, [("entity_type", Value.text "leads"), ("entity_id", Value.int 7),
        ("user_id", Value.int 1), ("content", Value.text "hi"),
        ("parent_id", Value.null), ("created_at", Value.int 2),
        ("username", Value.text "bob")]⟩] :=
  (c8_amended_comments_join_existing_users
    (createHandler (createHandler initDB 0 "users" [("username", Value.text "bob")]).db 2
      "comments" [("entity_type", Value.text "leads"), ("entity_id", Value.int 7),
        ("user_id", Value.int 1), ("content", Value.text "hi")]).db
    "leads" 7
    ⟨commentsCols, 2, [⟨1, [("entity_type", Value.text "leads"), ("entity_id", Value.int 7),
      ("user_id", Value.int 1), ("content", Value.text "hi"),
      ("parent_id", Value.null), ("created_at", Value.int 2)]⟩]⟩
    ⟨usersCols, 2, [⟨1, [("username", Value.text "bob"), ("password", Value.null),
      ("role_id", Value.null), ("department", Value.null)]⟩]⟩
    [⟨1, [("entity_type", Value.text "leads"), ("entity_id", Value.int 7),
      ("user_id", Value.int 1), ("content", Value.text "hi"),
      ("parent_id", Value.null), ("created_at", Value.int 2),
      ("username", Value.text "bob")]⟩]
    rfl rfl rfl).2.1
    ⟨1, [("entity_type", Value.text "leads"), ("entity_id", Value.int 7),
      ("user_id", Value.int 1), ("content", Value.text "hi"),
      ("parent_id", Value.null), ("created_at", Value.int 2)]⟩
    ⟨1, [("username", Value.text "bob"), ("password", Value.null),
      ("role_id", Value.null), ("department", Value.null)]⟩
    (by simp) (by simp) (by decide) (by decide) (by decide)

